import Mathlib

/-!
Shallow embedding of src/decorators.py (the utk-robotics-2017/utils
repository): the type-contract decorator `type_check` with its helpers
`check_parameter_types` and `check_return_type`, and the `retry`
decorator with exponential backoff.  Python runtime values are modelled
by `PyVal`, the class hierarchy by a table of classes each carrying its
name and method resolution order, and exceptions by `Except PyError`.
-/

namespace Decorators

/-- A Python class, as the contract machinery sees it: its declared
name (`__name__`) and its method resolution order (`__mro__`), a list of
class ids, most derived first, starting with the class itself. -/
structure ClassInfo where
  cname : String
  mro : List Nat
deriving Repr

/-- The table of all classes in the running program; a class id is an
index into it. Ids 0 to 8 are the built-ins of `baseTable`. -/
abbrev ClassTable := List ClassInfo

def objectId : Nat := 0
def typeId : Nat := 1
def intId : Nat := 2
def boolId : Nat := 3
def strId : Nat := 4
def noneId : Nat := 5
def listId : Nat := 6
/-- inspect._empty, the marker class that `Signature.empty` and
`Parameter.empty` refer to. No runtime value is an instance of it. -/
def emptyId : Nat := 7
def tupleId : Nat := 8

/-- The built-in classes: object, type, int, bool (a subclass of int,
as in Python), str, NoneType, list, inspect._empty, tuple. -/
def baseTable : ClassTable :=
  [⟨"object", [0]⟩,
   ⟨"type", [1, 0]⟩,
   ⟨"int", [2, 0]⟩,
   ⟨"bool", [3, 2, 0]⟩,
   ⟨"str", [4, 0]⟩,
   ⟨"NoneType", [5, 0]⟩,
   ⟨"list", [6, 0]⟩,
   ⟨"_empty", [7, 0]⟩,
   ⟨"tuple", [8, 0]⟩]

/-- A Python runtime value. `vobj cid` is an instance of the user class
with id `cid`; `vclass cid` is the class object itself (whose type is
`type`, the metaclass of every class in this program). -/
inductive PyVal where
  | vnone
  | vbool (b : Bool)
  | vint (n : Int)
  | vstr (s : String)
  | vlist (xs : List PyVal)
  | vtuple (xs : List PyVal)
  | vobj (cid : Nat)
  | vclass (cid : Nat)
deriving Repr

/-- type(v): the id of the class of a value. A class object is an
instance of `type` (every class in this file has metaclass `type`). -/
def typeOf : PyVal → Nat
  | .vnone => noneId
  | .vbool _ => boolId
  | .vint _ => intId
  | .vstr _ => strId
  | .vlist _ => listId
  | .vtuple _ => tupleId
  | .vobj cid => cid
  | .vclass _ => typeId

/-- The mro of a class id: its `__mro__`, or `[]` for an id outside the
table (unreachable for values built over the table). -/
def mroOf (tbl : ClassTable) (cid : Nat) : List Nat :=
  match tbl.get? cid with
  | some ci => ci.mro
  | none => []

/-- The `__name__` of a class id. -/
def className (tbl : ClassTable) (cid : Nat) : String :=
  match tbl.get? cid with
  | some ci => ci.cname
  | none => ""

/-- isinstance(v, C) for a plain class C: C appears in the mro of
type(v). -/
def isinst (tbl : ClassTable) (v : PyVal) (cid : Nat) : Bool :=
  (mroOf tbl (typeOf v)).contains cid

/-- An annotation value as the decorator inspects it: absent
(`inspect._empty`), a concrete class, a forward-reference string
literal, or a Python list of annotations (the multi-value return
contract of `type_check`). -/
inductive Ann where
  | empty
  | cls (cid : Nat)
  | str (s : String)
  | alist (anns : List Ann)
deriving Repr

/-- A Python exception as the decorator raises it. `strLit` is
`StringLiteralAsAnnotationTypeException` built, as on line 42 of the
source, with a function name and an argument name. -/
inductive PyError where
  | typeError (msg : String)
  | strLit (msg : String)
  | indexError
  | keyError
  | attributeError
  | valueError (msg : String)
deriving Repr, DecidableEq

/-- Lines 75, 84, 87, 108, 116 and 119 of the source execute
`raise StringLiteralAsAnnotationTypeException()` with no arguments, but
`StringLiteralAsAnnotationTypeException.__init__` (line 41) requires two
positional arguments, so evaluating that constructor call itself raises
a `TypeError` before the `raise` can deliver the intended exception.
This value is what those sites actually raise. -/
def strLitNoArgError : PyError :=
  .typeError "__init__ missing 2 required positional arguments: function_name and argument_name"

/-- A formal parameter of the declared signature: name and annotation. -/
structure Param where
  pname : String
  ann : Ann
deriving Repr

/-- A declared signature: ordered parameters and the return annotation. -/
structure Sig where
  params : List Param
  ret : Ann
deriving Repr

/-- Whether the parameter list declares a parameter of this name
(the `in` test on `sig.parameters`). -/
def hasParam (params : List Param) (n : String) : Bool :=
  params.any (fun p => p.pname == n)

/-- Lookup in `bound_arguments.arguments` by parameter name. -/
def lookupBound (bound : List (String × PyVal)) (n : String) : Option PyVal :=
  match bound.find? (fun kv => kv.1 == n) with
  | some kv => some kv.2
  | none => none

/-- The ancestor loop of the source: the first class id in the given mro
whose declared name equals `s`, if any. -/
def firstNamed (tbl : ClassTable) (mro : List Nat) (s : String) : Option Nat :=
  mro.find? (fun cid => className tbl cid == s)

/-- The `__mro__` attribute of a value: only class objects have one. -/
def classMroAttr (tbl : ClassTable) : PyVal → Option (List Nat)
  | .vclass cid => some (mroOf tbl cid)
  | _ => none

/-- isinstance(v, a) where `a` is whatever object stood in the
annotation after string resolution. For `empty` the second argument is
the class `inspect._empty`, of which no value is an instance; for a list
the call raises a `TypeError` (isinstance requires a type or a tuple of
types), and so it would for an unresolved string. -/
def isinstAnn (tbl : ClassTable) (v : PyVal) : Ann → Except PyError Bool
  | .cls cid => .ok (isinst tbl v cid)
  | .empty => .ok (isinst tbl v emptyId)
  | .str _ => .error (.typeError "isinstance arg 2 must be a type or tuple of types")
  | .alist _ => .error (.typeError "isinstance arg 2 must be a type or tuple of types")

/-- Model of check_parameter_types (source lines 63 to 93).  A string
annotation is resolved against the mro of type(self) when a `self`
parameter is declared, else against the mro of type(cls) when a `cls`
parameter is declared — note the source takes `type(...)` of the bound
`cls` value here, the metaclass of the class, unlike check_return_type —
else the bare constructor call of line 87 raises (see
`strLitNoArgError`).  The resolved (or literal) annotation is then used
in isinstance; a failed check raises a bare TypeError (line 93). -/
def check_parameter_types (tbl : ClassTable) (p : Param) (argValue : PyVal)
    (params : List Param) (bound : List (String × PyVal)) : Except PyError Unit :=
  let annR : Except PyError Ann :=
    match p.ann with
    | .str s =>
        if hasParam params "self" then
          match lookupBound bound "self" with
          | some selfVal =>
            match firstNamed tbl (mroOf tbl (typeOf selfVal)) s with
            | some cid => .ok (.cls cid)
            | none => .error strLitNoArgError
          | none => .error .keyError
        else if hasParam params "cls" then
          match lookupBound bound "cls" with
          | some clsVal =>
            match firstNamed tbl (mroOf tbl (typeOf clsVal)) s with
            | some cid => .ok (.cls cid)
            | none => .error strLitNoArgError
          | none => .error .keyError
        else .error strLitNoArgError
    | a => .ok a
  match annR with
  | .error e => .error e
  | .ok a =>
    match isinstAnn tbl argValue a with
    | .error e => .error e
    | .ok true => .ok ()
    | .ok false => .error (.typeError "")

/-- Model of check_return_type (source lines 96 to 125).  An empty
annotation is no check (line 98).  A string annotation resolves against
the mro of type(self) when `self` is declared, else against the
`__mro__` attribute of the bound `cls` value itself (line 111 — here the
source does not take `type(...)`), else the bare constructor call
raises.  Then isinstance as for parameters (line 123). -/
def check_return_type (tbl : ClassTable) (result : PyVal) (ra : Ann)
    (params : List Param) (bound : List (String × PyVal)) : Except PyError Unit :=
  match ra with
  | .empty => .ok ()
  | ra =>
    let annR : Except PyError Ann :=
      match ra with
      | .str s =>
          if hasParam params "self" then
            match lookupBound bound "self" with
            | some selfVal =>
              match firstNamed tbl (mroOf tbl (typeOf selfVal)) s with
              | some cid => .ok (.cls cid)
              | none => .error strLitNoArgError
            | none => .error .keyError
          else if hasParam params "cls" then
            match lookupBound bound "cls" with
            | some clsVal =>
              match classMroAttr tbl clsVal with
              | some mro =>
                match firstNamed tbl mro s with
                | some cid => .ok (.cls cid)
                | none => .error strLitNoArgError
              | none => .error .attributeError
            | none => .error .keyError
          else .error strLitNoArgError
      | a => .ok a
    match annR with
    | .error e => .error e
    | .ok a =>
      match isinstAnn tbl result a with
      | .error e => .error e
      | .ok true => .ok ()
      | .ok false => .error (.typeError "")

/-- Rendering of a value, standing in for Python str() in the format
strings of the wrapper messages. -/
def pyText : PyVal → String
  | .vnone => "None"
  | .vbool true => "True"
  | .vbool false => "False"
  | .vint n => toString n
  | .vstr s => s
  | .vlist xs => "[" ++ String.intercalate ", " (xs.attach.map (fun x => pyText x.1)) ++ "]"
  | .vtuple xs => "(" ++ String.intercalate ", " (xs.attach.map (fun x => pyText x.1)) ++ ")"
  | .vobj cid => "<object of class " ++ toString cid ++ ">"
  | .vclass cid => "<class " ++ toString cid ++ ">"
decreasing_by
  all_goals (simp only [PyVal.vlist.sizeOf_spec, PyVal.vtuple.sizeOf_spec]; have h := List.sizeOf_lt_of_mem x.2; omega)

/-- Rendering of type(v) in the wrapper messages. -/
def typeText (tbl : ClassTable) (cid : Nat) : String :=
  "<class " ++ className tbl cid ++ ">"

/-- Rendering of an annotation object in the wrapper messages. -/
def annText (tbl : ClassTable) : Ann → String
  | .empty => "<class inspect._empty>"
  | .cls cid => typeText tbl cid
  | .str s => s
  | .alist anns => "[" ++ String.intercalate ", " (anns.attach.map (fun a => annText tbl a.1)) ++ "]"
decreasing_by
  all_goals (simp only [Ann.alist.sizeOf_spec]; have h := List.sizeOf_lt_of_mem a.2; omega)

/-- The message of the TypeError re-raised at lines 140-141 for a failed
parameter check: it names the function, the offending parameter, the
actual type and the declared annotation. -/
def paramMismatchMsg (tbl : ClassTable) (fname argName : String) (argValue : PyVal)
    (a : Ann) : String :=
  fname ++ " argument " ++ argName ++ " is of type " ++ typeText tbl (typeOf argValue)
    ++ ", but should be of type " ++ annText tbl a

/-- The message StringLiteralAsAnnotationTypeException builds on line 42
when constructed with a function name and an argument name. -/
def strLitMsg (fname argName : String) : String :=
  "Function " ++ fname ++ " argument " ++ argName

/-- The message of the TypeError re-raised at lines 157-158 for a failed
slot of a multi-value return contract: it names the slot index, and
shows the whole returned value, its type and the whole contract. -/
def retSlotMsg (tbl : ClassTable) (fname : String) (i : Nat) (result : PyVal)
    (fullAnn : Ann) : String :=
  fname ++ " return value[" ++ toString i ++ "] " ++ pyText result ++ " is of type "
    ++ typeText tbl (typeOf result) ++ ", but should be of type " ++ annText tbl fullAnn

/-- The message of the TypeError re-raised at lines 166-167 for a failed
single-value return contract. -/
def retSingleMsg (tbl : ClassTable) (fname : String) (result : PyVal)
    (ra : Ann) : String :=
  fname ++ " return value " ++ pyText result ++ " is of type "
    ++ typeText tbl (typeOf result) ++ ", but should be of type " ++ annText tbl ra

/-- result[i]: lists, tuples and strings are indexable, an index past
the end raises IndexError, and indexing any other value raises a
TypeError (object is not subscriptable). -/
def getItem : PyVal → Nat → Except PyError PyVal
  | .vlist xs, i =>
      match xs.get? i with
      | some v => .ok v
      | none => .error .indexError
  | .vtuple xs, i =>
      match xs.get? i with
      | some v => .ok v
      | none => .error .indexError
  | .vstr s, i =>
      match s.data.get? i with
      | some c => .ok (.vstr (String.mk [c]))
      | none => .error .indexError
  | _, _ => .error (.typeError "object is not subscriptable")

/-- Model of sig.bind for a plain positional call of a signature without
defaults: each positional argument is matched to the parameter in the
same position; a wrong count raises a TypeError. -/
def bindArgs (params : List Param) (args : List PyVal) :
    Except PyError (List (String × PyVal)) :=
  if args.length = params.length then
    .ok ((params.zip args).map (fun pv => (pv.1.pname, pv.2)))
  else .error (.typeError "arguments do not match the signature")

/-- The bound-arguments mapping a successful bind produces. -/
def boundOf (params : List Param) (args : List PyVal) : List (String × PyVal) :=
  (params.zip args).map (fun pv => (pv.1.pname, pv.2))

/-- The parameter loop of the wrapper (lines 134-143): every bound
argument except those named self or cls goes through
check_parameter_types; a TypeError is re-raised with the message of
lines 140-141, a StringLiteralAsAnnotationTypeException would be
re-raised with the function and argument names (line 143). -/
def checkParamsLoop (tbl : ClassTable) (fname : String) (params : List Param)
    (bound : List (String × PyVal)) : List (Param × PyVal) → Except PyError Unit
  | [] => .ok ()
  | (p, v) :: rest =>
      if p.pname == "self" || p.pname == "cls" then
        checkParamsLoop tbl fname params bound rest
      else
        match check_parameter_types tbl p v params bound with
        | .ok () => checkParamsLoop tbl fname params bound rest
        | .error (.typeError _) =>
            .error (.typeError (paramMismatchMsg tbl fname p.pname v p.ann))
        | .error (.strLit _) => .error (.strLit (strLitMsg fname p.pname))
        | .error e => .error e

/-- The return loop of the wrapper for a list annotation (lines
150-158): slot i of the returned value is checked against the i-th
annotation; a StringLiteralAsAnnotationTypeException would be re-raised
naming return_value[i] (line 155), a TypeError is re-raised with the
message of lines 157-158, and any other exception — in particular the
IndexError of result[i] past the end — propagates unchanged. -/
def checkRetList (tbl : ClassTable) (fname : String) (params : List Param)
    (bound : List (String × PyVal)) (result : PyVal) (fullAnn : Ann) :
    Nat → List Ann → Except PyError Unit
  | _, [] => .ok ()
  | i, ra :: rest =>
      let slotRes : Except PyError Unit :=
        match getItem result i with
        | .error e => .error e
        | .ok item => check_return_type tbl item ra params bound
      match slotRes with
      | .ok () => checkRetList tbl fname params bound result fullAnn (i + 1) rest
      | .error (.strLit _) =>
          .error (.strLit (strLitMsg fname ("return_value[" ++ toString i ++ "]")))
      | .error (.typeError _) =>
          .error (.typeError (retSlotMsg tbl fname i result fullAnn))
      | .error e => .error e

/-- The return-check dispatch of the wrapper (lines 147-167): an empty
annotation is skipped, a list annotation runs the slot loop, any other
annotation is checked against the whole result. -/
def checkReturn (tbl : ClassTable) (fname : String) (sig : Sig) (result : PyVal)
    (bound : List (String × PyVal)) : Except PyError Unit :=
  match sig.ret with
  | .empty => .ok ()
  | .alist anns => checkRetList tbl fname sig.params bound result (.alist anns) 0 anns
  | ra =>
      match check_return_type tbl result ra sig.params bound with
      | .ok () => .ok ()
      | .error (.strLit _) => .error (.strLit (strLitMsg fname "return_value"))
      | .error (.typeError _) => .error (.typeError (retSingleMsg tbl fname result ra))
      | .error e => .error e

/-- Model of one call of the wrapper that type_check builds (lines
127-172): bind the arguments, check every non-self/cls parameter, run
the wrapped callable, check the return contract, hand the result back
unchanged.  The second component counts how many times the wrapped
callable ran during the call. -/
def typeCheckRun (tbl : ClassTable) (fname : String) (sig : Sig)
    (f : List (String × PyVal) → PyVal) (args : List PyVal) :
    Except PyError PyVal × Nat :=
  match bindArgs sig.params args with
  | .error e => (.error e, 0)
  | .ok bound =>
    match checkParamsLoop tbl fname sig.params bound (sig.params.zip args) with
    | .error e => (.error e, 0)
    | .ok () =>
      let result := f bound
      match checkReturn tbl fname sig result bound with
      | .error e => (.error e, 1)
      | .ok () => (.ok result, 1)

/-- The Python test `rv is True`: identity with the boolean True
singleton.  1 or a non-empty string are not `True`. -/
def pyIsTrue : PyVal → Bool
  | .vbool true => true
  | _ => false

/-- Model of the configuration checks retry runs at decoration time
(lines 183-191), before any callable is wrapped: backoff at most 1,
floored tries below 0, or delay at most 0 each raise a ValueError, in
that order; otherwise the floored tries value is kept for the loop. -/
def retryValidate (tries delay backoff : ℚ) : Except PyError Int :=
  if backoff ≤ 1 then .error (.valueError "backoff must be greater than 1")
  else
    let t : Int := Rat.floor tries
    if t < 0 then .error (.valueError "tries must be 0 or greater")
    else if delay ≤ 0 then .error (.valueError "delay must be greater than 0")
    else .ok t

/-- The while loop of f_retry (lines 198-208), entered with the result
`rv` of the latest attempt, the number of calls made so far, the
remaining tries and the current delay.  `f n` is what the wrapped
callable returns on its n-th invocation (counting from 0).  Returns the
value f_retry returns, the total number of invocations, and the list of
sleep durations in order. -/
def f_retry_go (backoff : ℚ) (f : Nat → PyVal) (rv : PyVal) (calls : Nat) :
    Nat → ℚ → Bool × Nat × List ℚ
  | 0, _ => (false, calls, [])
  | mtries + 1, mdelay =>
      if pyIsTrue rv then (true, calls, [])
      else
        let r := f_retry_go backoff f (f calls) (calls + 1) mtries (mdelay * backoff)
        (r.1, r.2.1, mdelay :: r.2.2)

/-- Model of one call of f_retry (lines 194-208) for a validated
configuration: make the first attempt, then run the loop. -/
def f_retry (tries : Nat) (delay backoff : ℚ) (f : Nat → PyVal) :
    Bool × Nat × List ℚ :=
  f_retry_go backoff f (f 0) 1 tries delay

/-! Helper lemmas shared by the claim theorems. -/

lemma bindArgs_ok (params : List Param) (args : List PyVal)
    (h : args.length = params.length) :
    bindArgs params args = .ok (boundOf params args) := by
  simp [bindArgs, boundOf, h]

lemma check_parameter_types_cls_ok (tbl : ClassTable) (p : Param) (v : PyVal)
    (params : List Param) (bound : List (String × PyVal)) (cid : Nat)
    (hann : p.ann = Ann.cls cid) (hinst : isinst tbl v cid = true) :
    check_parameter_types tbl p v params bound = .ok () := by
  simp [check_parameter_types, hann, isinstAnn, hinst]

lemma check_parameter_types_cls_mismatch (tbl : ClassTable) (p : Param) (v : PyVal)
    (params : List Param) (bound : List (String × PyVal)) (cid : Nat)
    (hann : p.ann = Ann.cls cid) (hinst : isinst tbl v cid = false) :
    check_parameter_types tbl p v params bound = .error (.typeError "") := by
  simp [check_parameter_types, hann, isinstAnn, hinst]

lemma checkParamsLoop_ok (tbl : ClassTable) (fname : String) (params : List Param)
    (bound : List (String × PyVal)) :
    ∀ pairs : List (Param × PyVal),
      (∀ pv ∈ pairs, pv.1.pname = "self" ∨ pv.1.pname = "cls" ∨
        check_parameter_types tbl pv.1 pv.2 params bound = .ok ()) →
      checkParamsLoop tbl fname params bound pairs = .ok ()
  | [], _ => rfl
  | (p, v) :: rest, h => by
      have hrest := checkParamsLoop_ok tbl fname params bound rest
        (fun pv hm => h pv (List.mem_cons_of_mem _ hm))
      have hp := h (p, v) (List.mem_cons_self _ _)
      unfold checkParamsLoop
      rcases hp with h1 | h1 | h1
      · have hcond : (p.pname == "self" || p.pname == "cls") = true := by simp_all
        simp [hcond, hrest]
      · have hcond : (p.pname == "self" || p.pname == "cls") = true := by simp_all
        simp [hcond, hrest]
      · by_cases hcond : (p.pname == "self" || p.pname == "cls") = true
        · simp [hcond, hrest]
        · simp [hcond, h1, hrest]

lemma checkParamsLoop_first_typeError (tbl : ClassTable) (fname : String)
    (params : List Param) (bound : List (String × PyVal)) (p : Param) (v : PyVal)
    (m : String) :
    ∀ (pre post : List (Param × PyVal)),
      (∀ pv ∈ pre, pv.1.pname = "self" ∨ pv.1.pname = "cls" ∨
        check_parameter_types tbl pv.1 pv.2 params bound = .ok ()) →
      p.pname ≠ "self" → p.pname ≠ "cls" →
      check_parameter_types tbl p v params bound = .error (.typeError m) →
      checkParamsLoop tbl fname params bound (pre ++ (p, v) :: post) =
        .error (.typeError (paramMismatchMsg tbl fname p.pname v p.ann))
  | [], post, _, hs, hc, hchk => by
      unfold checkParamsLoop
      have hname : (p.pname == "self" || p.pname == "cls") = false := by
        simp [hs, hc]
      simp [hname, hchk]
  | pv0 :: rest, post, h, hs, hc, hchk => by
      obtain ⟨q, w⟩ := pv0
      have h0 := h (q, w) (List.mem_cons_self _ _)
      have ih := checkParamsLoop_first_typeError tbl fname params bound p v m rest post
        (fun pv hm => h pv (List.mem_cons_of_mem _ hm)) hs hc hchk
      unfold checkParamsLoop
      rcases h0 with h1 | h1 | h1
      · have hcond : (q.pname == "self" || q.pname == "cls") = true := by simp_all
        simp [hcond, ih]
      · have hcond : (q.pname == "self" || q.pname == "cls") = true := by simp_all
        simp [hcond, ih]
      · by_cases hq : (q.pname == "self" || q.pname == "cls") = true
        · simp [hq, ih]
        · simp [hq, h1, ih]

/-- C1: for a decorated callable whose non-self/cls parameters all carry a
declared concrete class annotation, a call binding each argument to an
instance of its declared class (or a subclass), whose return contract is
satisfied by the result, runs the wrapped callable exactly once and hands
its return value back unchanged. -/
theorem type_check_pass_through (tbl : ClassTable) (fname : String) (sig : Sig)
    (f : List (String × PyVal) → PyVal) (args : List PyVal)
    (hlen : args.length = sig.params.length)
    (hparams : ∀ pv ∈ sig.params.zip args, pv.1.pname ≠ "self" → pv.1.pname ≠ "cls" →
      ∃ cid, pv.1.ann = Ann.cls cid ∧ isinst tbl pv.2 cid = true)
    (hret : checkReturn tbl fname sig (f (boundOf sig.params args))
      (boundOf sig.params args) = .ok ()) :
    typeCheckRun tbl fname sig f args = (.ok (f (boundOf sig.params args)), 1) := by
  have hloop : checkParamsLoop tbl fname sig.params (boundOf sig.params args)
      (sig.params.zip args) = .ok () := by
    refine checkParamsLoop_ok tbl fname sig.params (boundOf sig.params args) _ ?_
    intro pv hm
    by_cases hs : pv.1.pname = "self"
    · exact Or.inl hs
    by_cases hc : pv.1.pname = "cls"
    · exact Or.inr (Or.inl hc)
    obtain ⟨cid, hann, hinst⟩ := hparams pv hm hs hc
    exact Or.inr (Or.inr (check_parameter_types_cls_ok tbl pv.1 pv.2 sig.params
      (boundOf sig.params args) cid hann hinst))
  simp [typeCheckRun, bindArgs_ok sig.params args hlen, hloop, hret]

/-- Witness for C1: a callable with one int-annotated parameter and an int
return contract, called with 5 and returning 7, runs once and returns 7. -/
theorem type_check_pass_through_witness :
    typeCheckRun baseTable "f" ⟨[⟨"x", Ann.cls intId⟩], Ann.cls intId⟩
      (fun _ => PyVal.vint 7) [PyVal.vint 5] = (.ok (PyVal.vint 7), 1) :=
  type_check_pass_through baseTable "f" ⟨[⟨"x", Ann.cls intId⟩], Ann.cls intId⟩
    (fun _ => PyVal.vint 7) [PyVal.vint 5] rfl
    (by intro pv hm h1 h2; simp at hm; subst hm; exact ⟨intId, rfl, rfl⟩)
    rfl

/-- C2: when the first failing parameter carries a declared concrete class
annotation and its argument is not an instance of that class (nor of a
subclass), the wrapped callable never runs and the call raises a TypeError
whose message names that parameter. -/
theorem type_check_mismatch_aborts (tbl : ClassTable) (fname : String) (sig : Sig)
    (f : List (String × PyVal) → PyVal) (args : List PyVal)
    (pre post : List (Param × PyVal)) (p : Param) (v : PyVal) (cid : Nat)
    (hlen : args.length = sig.params.length)
    (hsplit : sig.params.zip args = pre ++ (p, v) :: post)
    (hpre : ∀ pv ∈ pre, pv.1.pname = "self" ∨ pv.1.pname = "cls" ∨
      check_parameter_types tbl pv.1 pv.2 sig.params (boundOf sig.params args) = .ok ())
    (hself : p.pname ≠ "self") (hcls : p.pname ≠ "cls")
    (hann : p.ann = Ann.cls cid)
    (hmis : isinst tbl v cid = false) :
    typeCheckRun tbl fname sig f args =
      (.error (.typeError (paramMismatchMsg tbl fname p.pname v (Ann.cls cid))), 0) := by
  have hloop := checkParamsLoop_first_typeError tbl fname sig.params
    (boundOf sig.params args) p v "" pre post hpre hself hcls
    (check_parameter_types_cls_mismatch tbl p v sig.params (boundOf sig.params args)
      cid hann hmis)
  rw [← hann]
  simp [typeCheckRun, bindArgs_ok sig.params args hlen, hsplit, hloop]

/-- Witness for C2: a callable declaring x as int, called with the string
value a, never runs and raises the TypeError naming x. -/
theorem type_check_mismatch_aborts_witness :
    typeCheckRun baseTable "f" ⟨[⟨"x", Ann.cls intId⟩], Ann.empty⟩
      (fun _ => PyVal.vnone) [PyVal.vstr "a"] =
      (.error (.typeError (paramMismatchMsg baseTable "f" "x" (PyVal.vstr "a")
        (Ann.cls intId))), 0) :=
  type_check_mismatch_aborts baseTable "f" ⟨[⟨"x", Ann.cls intId⟩], Ann.empty⟩
    (fun _ => PyVal.vnone) [PyVal.vstr "a"] [] [] ⟨"x", Ann.cls intId⟩
    (PyVal.vstr "a") intId rfl rfl
    (by intro pv hm; simp at hm) (by decide) (by decide) rfl rfl

/-- C3, the failing half: a parameter with no annotation does not mean no
check. The annotation of an unannotated parameter is the marker class
inspect._empty, check_parameter_types runs isinstance against that class
(line 92, with no guard like the one check_return_type has on line 98),
no value is an instance of it, so every call fails with a TypeError
claiming the argument should be of type inspect._empty and the wrapped
callable never runs. The return half of the claim does hold (lines 98
and 148 skip an absent return contract). -/
theorem type_check_unannotated_param_rejected :
    typeCheckRun baseTable "f" ⟨[⟨"x", Ann.empty⟩], Ann.empty⟩
      (fun _ => PyVal.vnone) [PyVal.vint 5] =
      (.error (.typeError (paramMismatchMsg baseTable "f" "x" (PyVal.vint 5)
        Ann.empty)), 0) := rfl

/-- A user class C (id 9) inheriting directly from object, added to the
built-in table. -/
def tableC : ClassTable := baseTable ++ [⟨"C", [9, 0]⟩]

/-- C4, failing: a classmethod of class C whose parameter is annotated
with the string C, called with cls bound to C itself and an instance of
C as argument. The claim expects the string to resolve to C. The code
walks type(cls).__mro__ (line 79) — the mro of the metaclass type, which
names only type and object — so resolution fails; the bare
StringLiteralAsAnnotationTypeException() call of line 84 then itself
raises TypeError (its __init__ needs two arguments), which the wrapper
re-raises as the parameter mismatch message. So the call neither
resolves the name nor raises the ForwardReferenceError the claim names,
and the wrapped callable never runs. -/
theorem type_check_classmethod_forward_ref_fails :
    typeCheckRun tableC "m" ⟨[⟨"cls", Ann.empty⟩, ⟨"x", Ann.str "C"⟩], Ann.empty⟩
      (fun _ => PyVal.vnone) [PyVal.vclass 9, PyVal.vobj 9] =
      (.error (.typeError (paramMismatchMsg tableC "m" "x" (PyVal.vobj 9)
        (Ann.str "C"))), 0) := rfl

/-- C5, the failing clause: a method of class C with return contract
[ the string Nope ], a name matching no ancestor. The claim expects a
ForwardReferenceError reported as return_value[0]; instead the bare
StringLiteralAsAnnotationTypeException() call of line 108 raises a
TypeError (its __init__ needs two arguments), the handler of lines
154-155 never fires, and the wrapper turns the TypeError into the slot
mismatch message of lines 157-158. The positional-validation half of
the claim does hold. -/
theorem type_check_slot_forward_ref_typeerror :
    typeCheckRun tableC "m" ⟨[⟨"self", Ann.empty⟩], Ann.alist [Ann.str "Nope"]⟩
      (fun _ => PyVal.vtuple [PyVal.vobj 9]) [PyVal.vobj 9] =
      (.error (.typeError (retSlotMsg tableC "m" 0 (PyVal.vtuple [PyVal.vobj 9])
        (Ann.alist [Ann.str "Nope"]))), 1) := rfl

/-- C6: retry(3, 1, 2) around a callable returning False, False, True
validates, returns True after exactly 3 invocations with sleeps of 1
then 2 (cumulative wait 3); retry(0, 1, 2) around an always-False
callable validates, invokes exactly once, sleeps never, returns False. -/
theorem retry_spec_examples :
    retryValidate 3 1 2 = .ok 3 ∧
    f_retry 3 1 2 (fun n => PyVal.vbool (decide (2 ≤ n))) = (true, 3, [1, 2]) ∧
    (f_retry 3 1 2 (fun n => PyVal.vbool (decide (2 ≤ n)))).2.2.sum = 3 ∧
    retryValidate 0 1 2 = .ok 0 ∧
    f_retry 0 1 2 (fun _ => PyVal.vbool false) = (false, 1, []) := by
  have h2 : f_retry 3 1 2 (fun n => PyVal.vbool (decide (2 ≤ n))) = (true, 3, [1, 2]) := by
    norm_num [f_retry, f_retry_go, pyIsTrue]
  refine ⟨rfl, h2, ?_, rfl, rfl⟩
  rw [h2]
  norm_num

/-- Counterexample to C7: retry(0, 1, 2) around a callable that returns
True on its very first invocation returns False, not True — with zero
remaining attempts the while loop of line 198 is never entered, so the
success test of line 199 never runs and the True result is discarded. -/
theorem retry_zero_tries_discards_success :
    f_retry 0 1 2 (fun _ => PyVal.vbool true) = (false, 1, []) := rfl

/-- C7 as amended: whenever at least one attempt remains, a first
invocation returning the boolean True makes the wrapper return True
immediately — exactly one invocation and no sleeps. -/
theorem retry_true_immediate_success (tries : Nat) (delay backoff : ℚ)
    (f : Nat → PyVal) (htries : 1 ≤ tries) (hf : pyIsTrue (f 0) = true) :
    f_retry tries delay backoff f = (true, 1, []) := by
  obtain ⟨m, rfl⟩ : ∃ m, tries = m + 1 := ⟨tries - 1, by omega⟩
  simp [f_retry, f_retry_go, hf]

/-- Witness for the amended C7: retry(1, 1, 2) around an immediately-True
callable returns True after one invocation and no sleep. -/
theorem retry_true_immediate_success_witness :
    f_retry 1 1 2 (fun _ => PyVal.vbool true) = (true, 1, []) :=
  retry_true_immediate_success 1 1 2 (fun _ => PyVal.vbool true)
    (by decide) rfl

/-- C8: the decoration-time checks raise a ValueError exactly when
backoff is at most 1, or the floored tries is negative, or delay is at
most 0; and a configuration passing all three checks validates to the
floored tries with no exception. -/
theorem retry_config_validation (tries delay backoff : ℚ) :
    ((∃ msg, retryValidate tries delay backoff = .error (.valueError msg)) ↔
      (backoff ≤ 1 ∨ Rat.floor tries < 0 ∨ delay ≤ 0)) ∧
    (retryValidate tries delay backoff = .ok (Rat.floor tries) ↔
      ¬(backoff ≤ 1 ∨ Rat.floor tries < 0 ∨ delay ≤ 0)) := by
  by_cases h1 : backoff ≤ 1
  · simp [retryValidate, h1]
  by_cases h2 : Rat.floor tries < 0
  · simp [retryValidate, h1, h2]
  by_cases h3 : delay ≤ 0
  · simp [retryValidate, h1, h2, h3]
  · simp [retryValidate, h1, h2, h3]

lemma pyIsTrue_eq_false (v : PyVal) (h : v ≠ PyVal.vbool true) :
    pyIsTrue v = false := by
  cases v with
  | vbool b =>
      cases b with
      | true => exact absurd rfl h
      | false => rfl
  | vnone => rfl
  | vint n => rfl
  | vstr s => rfl
  | vlist xs => rfl
  | vtuple xs => rfl
  | vobj cid => rfl
  | vclass cid => rfl

lemma f_retry_go_never_true (backoff : ℚ) (f : Nat → PyVal)
    (hf : ∀ n, f n ≠ PyVal.vbool true) :
    ∀ (mtries : Nat) (rv : PyVal) (calls : Nat) (mdelay : ℚ), rv ≠ PyVal.vbool true →
      (f_retry_go backoff f rv calls mtries mdelay).1 = false ∧
      (f_retry_go backoff f rv calls mtries mdelay).2.1 = calls + mtries
  | 0, rv, calls, mdelay, hrv => by simp [f_retry_go]
  | m + 1, rv, calls, mdelay, hrv => by
      have ih := f_retry_go_never_true backoff f hf m (f calls) (calls + 1)
        (mdelay * backoff) (hf calls)
      simp only [f_retry_go, pyIsTrue_eq_false rv hrv, if_false, Bool.false_eq_true]
      refine ⟨ih.1, ?_⟩
      have := ih.2
      omega

/-- C9: success is recognized only by identity with the boolean True.
When no invocation ever returns that value — in particular when the
callable returns a truthy non-boolean such as 1 — the wrapper keeps
retrying and ends with False after tries + 1 invocations. -/
theorem retry_non_true_is_failure (tries : Nat) (delay backoff : ℚ)
    (f : Nat → PyVal) (hf : ∀ n, f n ≠ PyVal.vbool true) :
    (f_retry tries delay backoff f).1 = false ∧
    (f_retry tries delay backoff f).2.1 = tries + 1 := by
  have h := f_retry_go_never_true backoff f hf tries (f 0) 1 delay (hf 0)
  refine ⟨h.1, ?_⟩
  have := h.2
  unfold f_retry at *
  omega

/-- Witness for C9: retry(2, 1, 2) around a callable always returning
the truthy integer 1 ends with False after 3 invocations. -/
theorem retry_non_true_is_failure_witness :
    (f_retry 2 1 2 (fun _ => PyVal.vint 1)).1 = false ∧
    (f_retry 2 1 2 (fun _ => PyVal.vint 1)).2.1 = 3 :=
  retry_non_true_is_failure 2 1 2 (fun _ => PyVal.vint 1)
    (fun _ h => PyVal.noConfusion h)

lemma checkRetList_short (tbl : ClassTable) (fname : String) (params : List Param)
    (bound : List (String × PyVal)) (xs : List PyVal) (fullAnn : Ann) :
    ∀ (rest : List Ann) (i : Nat),
      i ≤ xs.length → xs.length < i + rest.length →
      (∀ k ra item, rest.get? k = some ra → xs.get? (i + k) = some item →
        check_return_type tbl item ra params bound = .ok ()) →
      checkRetList tbl fname params bound (PyVal.vtuple xs) fullAnn i rest =
        .error .indexError
  | [], i, hle, hlt, _ => by simp at hlt; omega
  | ra :: rest, i, hle, hlt, hok => by
      by_cases hi : i < xs.length
      · obtain ⟨item, hitem⟩ : ∃ item, xs.get? i = some item :=
          ⟨xs.get ⟨i, hi⟩, List.get?_eq_get hi⟩
        have hchk := hok 0 ra item rfl (by simpa using hitem)
        have ih := checkRetList_short tbl fname params bound xs fullAnn rest (i + 1)
          (by omega) (by simp at hlt ⊢; omega)
          (fun k ra2 it2 hk1 hk2 => hok (k + 1) ra2 it2 (by simpa using hk1)
            (by rw [show i + (k + 1) = i + 1 + k by omega]; exact hk2))
        have hitem2 : xs[i]? = some item := by
          rw [← List.get?_eq_getElem?]
          exact hitem
        unfold checkRetList
        simp [getItem, hitem2, hchk, ih]
      · have hieq : xs[i]? = none := by
          rw [← List.get?_eq_getElem?, List.get?_eq_none]
          omega
        unfold checkRetList
        simp [getItem, hieq]

/-- C10: a list return contract of length n makes the decorator index
the returned value at 0 .. n-1; a returned tuple shorter than n, whose
in-range slots all pass their checks, makes the call raise a raw
IndexError (not a TypeMismatch or any contract diagnostic) at the first
out-of-range slot, after the wrapped callable ran once. -/
theorem type_check_list_return_short_index_error (tbl : ClassTable) (fname : String)
    (params : List Param) (anns : List Ann) (f : List (String × PyVal) → PyVal)
    (args : List PyVal) (xs : List PyVal)
    (hlen : args.length = params.length)
    (hparams : checkParamsLoop tbl fname params (boundOf params args)
      (params.zip args) = .ok ())
    (hres : f (boundOf params args) = PyVal.vtuple xs)
    (hshort : xs.length < anns.length)
    (hslots : ∀ k ra item, anns.get? k = some ra → xs.get? k = some item →
      check_return_type tbl item ra params (boundOf params args) = .ok ()) :
    typeCheckRun tbl fname ⟨params, Ann.alist anns⟩ f args = (.error .indexError, 1) := by
  have hlist := checkRetList_short tbl fname params (boundOf params args) xs
    (Ann.alist anns) anns 0 (by omega) (by omega)
    (fun k ra it hk1 hk2 => hslots k ra it hk1 (by simpa using hk2))
  simp [typeCheckRun, bindArgs_ok params args hlen, hparams, checkReturn, hres, hlist]

/-- Witness for C10: a contract of two ints against a returned 1-tuple
whose only slot is an int raises a raw IndexError after one invocation. -/
theorem type_check_list_return_short_index_error_witness :
    typeCheckRun baseTable "f" ⟨[], Ann.alist [Ann.cls intId, Ann.cls intId]⟩
      (fun _ => PyVal.vtuple [PyVal.vint 5]) [] = (.error .indexError, 1) :=
  type_check_list_return_short_index_error baseTable "f" []
    [Ann.cls intId, Ann.cls intId] (fun _ => PyVal.vtuple [PyVal.vint 5]) []
    [PyVal.vint 5] rfl rfl rfl (by decide)
    (by
      intro k ra item h1 h2
      match k with
      | 0 =>
          simp at h1 h2
          rw [← h1, ← h2]
          rfl
      | k + 1 => simp at h2)

end Decorators
